import Mathlib

/-!
Verification of the MicroscopeStream repository: a shallow embedding of the
frame-distribution pipeline (`output_module.py`, `camera.py`,
`outputs/timelapse_module.py`, `app.py`) and proofs about its operations.

Conventions of the embedding:
* wall-clock times, rates and intervals are rationals (`ℚ`), standing for the
  Python floats, with exact arithmetic;
* frames are natural numbers (their payload is irrelevant to the properties);
* each Python method becomes a pure function from the old state (plus any
  explicit inputs such as the current wall-clock time) to the new state and
  the returned value;
* interactions with the camera hardware are recorded as an explicit event
  trace (`CamEvent`), and the places where the hardware may raise an
  exception inside `Camera.start` are driven by an oracle
  `fail : StartStep → Bool`;
* `processing_strategy` is its default `None`, so `process_frame` is the
  identity, matching `OutputModule.__init__`.
-/

namespace MicroscopeStream

/-- State of `OutputModule` (`output_module.py`): the bounded frame queue,
the running flag, the configured fps / frame interval pair, and the rate-gate
clock `last_frame_time`.  The worker thread object itself carries no further
observable state, so it is not modelled as a field. -/
structure OutputModule where
  maxQueueSize : Nat
  frameQueue : List Nat
  is_running : Bool
  fps : ℚ
  frame_interval : ℚ
  last_frame_time : ℚ
  last_frame : Option Nat
deriving Repr, DecidableEq

/-- `OutputModule.__init__(name, max_queue_size)`: empty queue, not running,
fps 10, interval 1/10, rate-gate clock 0, no last frame. -/
def OutputModule.init (maxQueueSize : Nat) : OutputModule :=
  { maxQueueSize := maxQueueSize
    frameQueue := []
    is_running := false
    fps := 10
    frame_interval := 1 / 10
    last_frame_time := 0
    last_frame := none }

/-- `OutputModule.clear_queue`: drain the queue. -/
def OutputModule.clear_queue (m : OutputModule) : OutputModule :=
  { m with frameQueue := [] }

/-- `OutputModule.start`: returns `False` when already running, otherwise sets
`is_running`, clears the queue, launches the worker and returns `True`.
Note the source does not touch `last_frame_time`. -/
def OutputModule.start (m : OutputModule) : OutputModule × Bool :=
  if m.is_running then (m, false)
  else (OutputModule.clear_queue { m with is_running := true }, true)

/-- `OutputModule.stop`: returns `False` when not running, otherwise clears
`is_running`, joins the worker, clears the queue and returns `True`. -/
def OutputModule.stop (m : OutputModule) : OutputModule × Bool :=
  if m.is_running then (OutputModule.clear_queue { m with is_running := false }, true)
  else (m, false)

/-- Whether `queue.Queue(maxsize).put(block=False)` would raise `Full`:
a positive `maxsize` already reached (a non-positive maxsize means an
unbounded queue in Python). -/
def OutputModule.queueFull (m : OutputModule) : Bool :=
  m.maxQueueSize ≠ 0 && m.maxQueueSize ≤ m.frameQueue.length

/-- `OutputModule.add_frame(frame)`: `False` when not running; otherwise a
non-blocking put that returns `False` on a full queue and `True` after
appending the frame. -/
def OutputModule.add_frame (m : OutputModule) (frame : Nat) : OutputModule × Bool :=
  if m.is_running then
    if m.queueFull then (m, false)
    else ({ m with frameQueue := m.frameQueue ++ [frame] }, true)
  else (m, false)

/-- `OutputModule.set_fps(fps)`: rejects non-positive values; otherwise stores
`fps` and `frame_interval = 1/fps`. -/
def OutputModule.set_fps (m : OutputModule) (fps : ℚ) : OutputModule × Bool :=
  if fps ≤ 0 then (m, false)
  else ({ m with fps := fps, frame_interval := 1 / fps }, true)

/-- `OutputModule.set_frametime(frametime)`: rejects non-positive values;
otherwise stores `frame_interval = frametime` and `fps = 1/frametime`. -/
def OutputModule.set_frametime (m : OutputModule) (frametime : ℚ) : OutputModule × Bool :=
  if frametime ≤ 0 then (m, false)
  else ({ m with frame_interval := frametime, fps := 1 / frametime }, true)

/-- `OutputModule.should_process_frame` at wall-clock time `now`: `True`, and
`last_frame_time := now`, exactly when `now - last_frame_time ≥
frame_interval`. -/
def OutputModule.should_process_frame (m : OutputModule) (now : ℚ) : OutputModule × Bool :=
  if m.frame_interval ≤ now - m.last_frame_time then
    ({ m with last_frame_time := now }, true)
  else (m, false)

/-- One call of `set_fps` or `set_frametime` with a given argument. -/
inductive RateOp where
  | setFps (q : ℚ)
  | setFrametime (q : ℚ)
deriving Repr, DecidableEq

/-- Apply one rate-setting call, keeping only the resulting state. -/
def OutputModule.applyRateOp (m : OutputModule) (op : RateOp) : OutputModule :=
  match op with
  | RateOp.setFps q => (m.set_fps q).1
  | RateOp.setFrametime q => (m.set_frametime q).1

/-- Apply a sequence of rate-setting calls. -/
def OutputModule.applyRateOps (m : OutputModule) (ops : List RateOp) : OutputModule :=
  ops.foldl OutputModule.applyRateOp m

/-- Feed a sequence of captured frames to a module via `add_frame`. -/
def OutputModule.offerFrames (m : OutputModule) (fs : List Nat) : OutputModule :=
  fs.foldl (fun s fr => (s.add_frame fr).1) m

/-! ## Camera (`camera.py`) -/

/-- `DEFAULT_IDLE_CAMERA_FPS = 1/20` from `camera.py`. -/
def DEFAULT_IDLE_CAMERA_FPS : ℚ := 1 / 20

/-- Observable interaction with the camera hardware (the `Picamera2`
handle): opening and closing the handle, configuring it, applying the
non-FPS parameters, starting and stopping the hardware session, and
applying `FrameDurationLimits`. -/
inductive CamEvent where
  | hwOpen
  | hwConfigure
  | applyParams
  | hwStart
  | applyFpsLimits
  | hwStop
  | hwClose
deriving Repr, DecidableEq

/-- Places inside the `try` block of `Camera.start` where the hardware can
raise an exception that reaches the `except` clause: `Picamera2()`,
configuration (`create_preview_configuration` / `configure`), and
`camera.start()`.  (`sensor_modes`, `_apply_camera_parameters` and
`_apply_camera_fps_limits` catch their own exceptions.) -/
inductive StartStep where
  | openCam
  | configureCam
  | startHw
deriving Repr, DecidableEq

/-- The hardware oracle under which no step of `Camera.start` fails. -/
def noFail : StartStep → Bool := fun _ => false

/-- State of `Camera` (`camera.py`): whether `self.camera` is a live handle
(`cameraOpen`), the running flag, whether a capture thread was launched,
the target capture fps, and the stored settings. -/
structure Camera where
  cameraOpen : Bool
  is_running : Bool
  threadLaunched : Bool
  current_capture_fps : ℚ
  resolution : Int × Int
  brightness : ℚ
  contrast : ℚ
  saturation : ℚ
deriving Repr, DecidableEq

/-- `Camera.__init__`: no handle, not running, idle fps, Full HD defaults. -/
def Camera.init : Camera :=
  { cameraOpen := false
    is_running := false
    threadLaunched := false
    current_capture_fps := DEFAULT_IDLE_CAMERA_FPS
    resolution := (1920, 1080)
    brightness := 0
    contrast := 1
    saturation := 1 }

/-- `Camera.start`: returns `False` when already running; otherwise opens the
handle, configures it, applies parameters, starts the hardware session,
applies the fps limits, launches the capture thread and returns `True`.  If a
step raises (`fail` says which), the `except` clause closes the handle (when
one is open), resets it to `None`, and returns `False` without launching the
thread. -/
def Camera.start (c : Camera) (fail : StartStep → Bool) :
    Camera × List CamEvent × Bool :=
  if c.is_running then (c, [], false)
  else if fail StartStep.openCam then
    ({ c with cameraOpen := false },
     if c.cameraOpen then [CamEvent.hwClose] else [], false)
  else if fail StartStep.configureCam then
    ({ c with cameraOpen := false },
     [CamEvent.hwOpen, CamEvent.hwClose], false)
  else if fail StartStep.startHw then
    ({ c with cameraOpen := false },
     [CamEvent.hwOpen, CamEvent.hwConfigure, CamEvent.applyParams, CamEvent.hwClose],
     false)
  else
    ({ c with cameraOpen := true, is_running := true, threadLaunched := true },
     [CamEvent.hwOpen, CamEvent.hwConfigure, CamEvent.applyParams,
      CamEvent.hwStart, CamEvent.applyFpsLimits],
     true)

/-- `Camera.stop`: returns `False` when not running; otherwise joins the
thread, stops and closes the handle when present, resets it to `None` and
returns `True`. -/
def Camera.stop (c : Camera) : Camera × List CamEvent × Bool :=
  if c.is_running then
    ({ c with is_running := false, threadLaunched := false, cameraOpen := false },
     if c.cameraOpen then [CamEvent.hwStop, CamEvent.hwClose] else [],
     true)
  else (c, [], false)

/-- `Camera.update_capture_fps(new_fps)`: a non-positive request is replaced
by `1.0`; when the (clamped) value differs from the current one it is stored
and, if the camera is live, the camera is restarted (`self.stop()` then
`self.start()`) to apply it; otherwise nothing happens. -/
def Camera.update_capture_fps (c : Camera) (new_fps : ℚ) (fail : StartStep → Bool) :
    Camera × List CamEvent :=
  let nf := if new_fps ≤ 0 then (1 : ℚ) else new_fps
  if c.current_capture_fps = nf then (c, [])
  else
    let c1 : Camera := { c with current_capture_fps := nf }
    if c1.is_running && c1.cameraOpen then
      let s := c1.stop
      let r := s.1.start fail
      (r.1, s.2.1 ++ r.2.1)
    else (c1, [])

/-- The keyword arguments accepted by `Camera.update_settings`: each field is
present (`some`) or absent (`none`); the `_ui` fields carry the raw UI
values. -/
structure CamSettings where
  resolution : Option (Int × Int)
  brightness_ui : Option ℚ
  contrast_ui : Option ℚ
  saturation_ui : Option ℚ
deriving Repr, DecidableEq

/-- The settings-diff part of `Camera.update_settings`: walk the supplied
keyword arguments in source order, storing each changed value, and return
the new state together with the `updated` and `restart_required` flags (a
restart is marked exactly by a changed, valid resolution). -/
def Camera.applySettingsFields (c : Camera) (s : CamSettings) : Camera × Bool × Bool :=
  let resStep : Camera × Bool × Bool :=
    match s.resolution with
    | none => (c, false, false)
    | some r =>
      if c.resolution ≠ r ∧ 0 < r.1 ∧ 0 < r.2 then
        ({ c with resolution := r }, true, true)
      else (c, false, false)
  let c1 := resStep.1
  let brStep : Camera × Bool :=
    match s.brightness_ui with
    | none => (c1, resStep.2.1)
    | some b =>
      let nb := b / 50 - 1
      if c1.brightness ≠ nb then ({ c1 with brightness := nb }, true)
      else (c1, resStep.2.1)
  let c2 := brStep.1
  let coStep : Camera × Bool :=
    match s.contrast_ui with
    | none => (c2, brStep.2)
    | some co =>
      let nc := co / 25
      if c2.contrast ≠ nc then ({ c2 with contrast := nc }, true)
      else (c2, brStep.2)
  let c3 := coStep.1
  let saStep : Camera × Bool :=
    match s.saturation_ui with
    | none => (c3, coStep.2)
    | some sa =>
      let ns := sa / 25
      if c3.saturation ≠ ns then ({ c3 with saturation := ns }, true)
      else (c3, coStep.2)
  (saStep.1, saStep.2, resStep.2.2)

/-- `Camera.update_settings(**settings)`: apply the settings diff; if a
restart is required while running, stop and start the camera and return
`True`; otherwise, if something was updated while the handle is live, apply
the parameters on the fly.  Returns whether anything was updated. -/
def Camera.update_settings (c : Camera) (s : CamSettings) (fail : StartStep → Bool) :
    Camera × List CamEvent × Bool :=
  let a := c.applySettingsFields s
  if a.2.2 && a.1.is_running then
    let sp := a.1.stop
    let sr := sp.1.start fail
    (sr.1, sp.2.1 ++ sr.2.1, true)
  else if a.2.1 && a.1.cameraOpen && a.1.is_running then
    (a.1, [CamEvent.applyParams], a.2.1)
  else (a.1, [], a.2.1)

/-- The clamp `Camera.update_capture_fps` applies to a requested rate:
non-positive requests become `1.0`. -/
def clampFps (q : ℚ) : ℚ := if q ≤ 0 then 1 else q

/-! ## FPS negotiation (`app.py`) -/

/-- What `update_camera_fps_based_on_outputs` reads from each registered
output module: its `is_running` flag and the value its
`get_required_camera_fps()` would return. -/
structure ModView where
  is_running : Bool
  required_fps : ℚ
deriving Repr, DecidableEq

/-- The accumulator step of the loop in `update_camera_fps_based_on_outputs`:
`(max_required_fps, active_module_found)`. -/
def fpsStep (acc : ℚ × Bool) (m : ModView) : ℚ × Bool :=
  if m.is_running && decide (0 < m.required_fps) then
    (max acc.1 m.required_fps, true)
  else acc

/-- The target fps computed by `update_camera_fps_based_on_outputs`. -/
def targetCameraFps (mods : List ModView) : ℚ :=
  let r := mods.foldl fpsStep (0, false)
  if r.2 && decide (0 < r.1) then r.1 else DEFAULT_IDLE_CAMERA_FPS

/-- `update_camera_fps_based_on_outputs()`: compute the target fps from the
registered modules and hand it to `camera.update_capture_fps`. -/
def update_camera_fps_based_on_outputs (cam : Camera) (mods : List ModView)
    (fail : StartStep → Bool) : Camera × List CamEvent :=
  cam.update_capture_fps (targetCameraFps mods) fail

/-- The positive reported demands among currently running modules (the
quantity the spec's sentence ranges over). -/
def runningPositiveRates (mods : List ModView) : List ℚ :=
  mods.filterMap fun m =>
    if m.is_running && decide (0 < m.required_fps) then some m.required_fps
    else none

/-! ## Timelapse (`outputs/timelapse_module.py`) -/

/-- State of `TimelapseModule`: the base `OutputModule` state plus the
configured duration and minimum frame count, the collected frames and the
session start time.  (`self.interval` mirrors `frame_interval` and plays no
role in the claims; the video writer's output path and fps are immaterial,
an artifact is represented by its ordered list of frames.) -/
structure TimelapseModule extends OutputModule where
  duration : ℚ
  min_frames : Nat
  frames : List Nat
  start_time : ℚ
deriving Repr, DecidableEq

/-- `TimelapseModule.__init__`: base defaults, duration 300 s, min 10
frames, no collected frames yet. -/
def TimelapseModule.init : TimelapseModule :=
  { toOutputModule := OutputModule.init 300
    duration := 300
    min_frames := 10
    frames := []
    start_time := 0 }

/-- `TimelapseModule._create_timelapse`: with no frames or fewer than
`min_frames` the frames are discarded (no artifact) and `start_time` is
reset to 0; otherwise one video containing all collected frames in order is
written, the frames are cleared, and `start_time` is re-armed to the current
time when still running (0 otherwise). -/
def TimelapseModule.create_timelapse (t : TimelapseModule) (now : ℚ) :
    TimelapseModule × Option (List Nat) :=
  if t.frames = [] ∨ t.frames.length < t.min_frames then
    ({ t with frames := [], start_time := 0 }, none)
  else
    ({ t with frames := [],
              start_time := if t.is_running then now else 0 },
     some t.frames)

/-- `TimelapseModule.start`: delegates to `OutputModule.start`; on success
clears the collected frames and stamps `start_time := now`. -/
def TimelapseModule.tl_start (t : TimelapseModule) (now : ℚ) :
    TimelapseModule × Bool :=
  let r := t.toOutputModule.start
  if r.2 then
    ({ t with toOutputModule := r.1, frames := [], start_time := now }, true)
  else (t, false)

/-- The body of the loop in `TimelapseModule.process_frames` for one frame
drained from the queue at wall-clock time `now`: append the (identically)
processed frame, then call `_create_timelapse` exactly when the duration has
elapsed, or when `min_frames` is reached while no longer running.  Returns
the new state, whether assembly was triggered, and the artifact if one was
produced. -/
def TimelapseModule.handle_frame (t : TimelapseModule) (fr : Nat) (now : ℚ) :
    TimelapseModule × Bool × Option (List Nat) :=
  let t1 : TimelapseModule :=
    { t with frames := t.frames ++ [fr],
             toOutputModule := { t.toOutputModule with last_frame := some fr } }
  if (0 < t1.duration ∧ t1.duration ≤ now - t1.start_time) ∨
     (0 < t1.min_frames ∧ t1.min_frames ≤ t1.frames.length ∧ t1.is_running = false) then
    let r := t1.create_timelapse now
    (r.1, true, r.2)
  else (t1, false, none)

/-- `TimelapseModule.stop`: a no-op returning `False` when already stopped;
otherwise stops the base module, assembles the final video when frames were
collected and the duration elapsed or `min_frames` was met, discards the
frames otherwise, resets `start_time` and returns `True`. -/
def TimelapseModule.tl_stop (t : TimelapseModule) (now : ℚ) :
    TimelapseModule × Bool × Option (List Nat) :=
  if t.is_running then
    let b := t.toOutputModule.stop
    let t1 : TimelapseModule := { t with toOutputModule := b.1 }
    if 0 < t1.frames.length ∧
       ((0 < t1.duration ∧ t1.duration ≤ now - t1.start_time) ∨
        (0 < t1.min_frames ∧ t1.min_frames ≤ t1.frames.length)) then
      let r := t1.create_timelapse now
      ({ r.1 with start_time := 0 }, true, r.2)
    else if 0 < t1.frames.length then
      ({ t1 with frames := [], start_time := 0 }, true, none)
    else ({ t1 with start_time := 0 }, true, none)
  else (t, false, none)

/-! ## Concrete states used in witnesses and counterexamples -/

/-- A stopped module whose rate-gate clock holds a stale timestamp. -/
def staleModule : OutputModule :=
  { OutputModule.init 300 with last_frame_time := 5 }

/-- A camera with a live hardware session targeting 1 fps. -/
def liveCamera : Camera :=
  { Camera.init with
    cameraOpen := true
    is_running := true
    threadLaunched := true
    current_capture_fps := 1 }

/-- A hardware oracle under which configuring the camera raises. -/
def failConfigure : StartStep → Bool :=
  fun s => s == StartStep.configureCam

/-- A settings update changing only the resolution (to VGA). -/
def resSettings : CamSettings :=
  { resolution := some (640, 480)
    brightness_ui := none
    contrast_ui := none
    saturation_ui := none }

/-- A settings update changing only the brightness (UI value 80). -/
def brightnessSettings : CamSettings :=
  { resolution := none
    brightness_ui := some 80
    contrast_ui := none
    saturation_ui := none }

/-- A running timelapse session: 3 collected frames, min 2, duration 300 s,
session started at time 100. -/
def runningTimelapse : TimelapseModule :=
  { toOutputModule := { OutputModule.init 300 with is_running := true }
    duration := 300
    min_frames := 2
    frames := [7, 8, 9]
    start_time := 100 }

/-! ## Helper lemmas -/

/-- Offering frames to a stopped module changes nothing at all. -/
lemma offerFrames_stopped : ∀ (fs : List Nat) (m : OutputModule),
    m.is_running = false → m.offerFrames fs = m := by
  intro fs
  induction fs with
  | nil => intro m _; rfl
  | cons fr fs ih =>
    intro m h
    have h1 : (m.add_frame fr).1 = m := by
      simp [OutputModule.add_frame, h]
    calc OutputModule.offerFrames m (fr :: fs)
        = OutputModule.offerFrames (m.add_frame fr).1 fs := rfl
      _ = (m.add_frame fr).1 := ih _ (by rw [h1]; exact h)
      _ = m := h1

/-- A single rate-setting call keeps `frame_interval` and `fps` positive. -/
lemma applyRateOp_pos (m : OutputModule) (op : RateOp)
    (h1 : 0 < m.frame_interval) (h2 : 0 < m.fps) :
    0 < (m.applyRateOp op).frame_interval ∧ 0 < (m.applyRateOp op).fps := by
  cases op with
  | setFps q =>
    by_cases hq : q ≤ 0
    · simpa [OutputModule.applyRateOp, OutputModule.set_fps, hq] using ⟨h1, h2⟩
    · push_neg at hq
      simp only [OutputModule.applyRateOp, OutputModule.set_fps, if_neg (not_le.mpr hq)]
      exact ⟨by positivity, hq⟩
  | setFrametime q =>
    by_cases hq : q ≤ 0
    · simpa [OutputModule.applyRateOp, OutputModule.set_frametime, hq] using ⟨h1, h2⟩
    · push_neg at hq
      simp only [OutputModule.applyRateOp, OutputModule.set_frametime, if_neg (not_le.mpr hq)]
      exact ⟨hq, by positivity⟩

/-- Any sequence of rate-setting calls keeps `frame_interval` and `fps`
positive. -/
lemma applyRateOps_pos : ∀ (ops : List RateOp) (m : OutputModule),
    0 < m.frame_interval → 0 < m.fps →
    0 < (m.applyRateOps ops).frame_interval ∧ 0 < (m.applyRateOps ops).fps := by
  intro ops
  induction ops with
  | nil => intro m h1 h2; exact ⟨h1, h2⟩
  | cons op ops ih =>
    intro m h1 h2
    have hstep := applyRateOp_pos m op h1 h2
    exact ih (m.applyRateOp op) hstep.1 hstep.2

/-- `Camera.start` never changes the stored target capture fps. -/
lemma Camera.start_fps (c : Camera) (fail : StartStep → Bool) :
    (c.start fail).1.current_capture_fps = c.current_capture_fps := by
  unfold Camera.start
  split
  · rfl
  · split
    · rfl
    · split
      · rfl
      · split <;> rfl

/-- `Camera.stop` never changes the stored target capture fps. -/
lemma Camera.stop_fps (c : Camera) :
    c.stop.1.current_capture_fps = c.current_capture_fps := by
  unfold Camera.stop
  split <;> rfl

/-- The clamp is always positive. -/
lemma clampFps_pos (q : ℚ) : 0 < clampFps q := by
  unfold clampFps
  split
  · norm_num
  · linarith [not_le.mp (by assumption)]

/-- After `update_capture_fps`, the stored target fps is the clamped
request, whatever the hardware oracle does. -/
lemma update_capture_fps_result (c : Camera) (q : ℚ) (fail : StartStep → Bool) :
    (c.update_capture_fps q fail).1.current_capture_fps = clampFps q := by
  unfold Camera.update_capture_fps clampFps
  by_cases he : c.current_capture_fps = if q ≤ 0 then (1 : ℚ) else q
  · simp [he]
  · simp only [if_neg he]
    split
    · rw [Camera.start_fps, Camera.stop_fps]
    · rfl

/-- The settings diff touches only the stored parameters: the running flag
and the handle are untouched. -/
lemma applySettingsFields_preserves (c : Camera) (s : CamSettings) :
    (c.applySettingsFields s).1.is_running = c.is_running ∧
    (c.applySettingsFields s).1.cameraOpen = c.cameraOpen := by
  unfold Camera.applySettingsFields
  rcases s with ⟨r, b, co, sa⟩
  cases r <;> cases b <;> cases co <;> cases sa <;>
    constructor <;> (dsimp only []; repeat' split) <;> rfl

/-- A supplied resolution that differs from the current one and is valid
marks the restart flag. -/
lemma applySettingsFields_restart (c : Camera) (s : CamSettings) (r : Int × Int)
    (hres : s.resolution = some r) (hne : c.resolution ≠ r)
    (h1 : 0 < r.1) (h2 : 0 < r.2) :
    (c.applySettingsFields s).2.2 = true := by
  simp [Camera.applySettingsFields, hres, hne, h1, h2]

/-- With no resolution supplied, no restart is marked. -/
lemma applySettingsFields_no_restart (c : Camera) (s : CamSettings)
    (hres : s.resolution = none) :
    (c.applySettingsFields s).2.2 = false := by
  unfold Camera.applySettingsFields
  rw [hres]

/-- The loop of `update_camera_fps_based_on_outputs` computes the max of the
positive demands of running modules, and whether it saw one. -/
lemma foldl_fpsStep_eq : ∀ (mods : List ModView) (a : ℚ) (b : Bool),
    mods.foldl fpsStep (a, b) =
      ((runningPositiveRates mods).foldl max a,
       b || !(runningPositiveRates mods).isEmpty) := by
  intro mods
  induction mods with
  | nil => intro a b; simp [runningPositiveRates]
  | cons m mods ih =>
    intro a b
    by_cases h : m.is_running = true ∧ 0 < m.required_fps
    · simp [runningPositiveRates, fpsStep, h.1, h.2, ih]
    · simp [runningPositiveRates, fpsStep, h, ih]

/-- The seed of a `max` fold bounds nothing above the result. -/
lemma le_foldl_max_init : ∀ (l : List ℚ) (a : ℚ), a ≤ l.foldl max a := by
  intro l
  induction l with
  | nil => intro a; exact le_refl a
  | cons x l ih =>
    intro a
    exact le_trans (le_max_left a x) (ih (max a x))

/-- Every member of the list is bounded by the `max` fold. -/
lemma foldl_max_le_of_mem : ∀ (l : List ℚ) (a q : ℚ), q ∈ l → q ≤ l.foldl max a := by
  intro l
  induction l with
  | nil => intro a q hq; cases hq
  | cons x l ih =>
    intro a q hq
    rcases List.mem_cons.mp hq with h | h
    · subst h
      exact le_trans (le_max_right a q) (le_foldl_max_init l (max a q))
    · exact ih (max a x) q h

/-- The `max` fold is the seed or a member of the list. -/
lemma foldl_max_mem_or_eq : ∀ (l : List ℚ) (a : ℚ),
    l.foldl max a = a ∨ l.foldl max a ∈ l := by
  intro l
  induction l with
  | nil => intro a; exact Or.inl rfl
  | cons x l ih =>
    intro a
    rcases ih (max a x) with h | h
    · rcases max_choice a x with hm | hm
      · exact Or.inl (by rw [List.foldl_cons, h, hm])
      · refine Or.inr ?_
        rw [List.foldl_cons, h, hm]
        exact List.mem_cons_self x l
    · exact Or.inr (List.mem_cons_of_mem x h)

/-- Every reported demand collected by the negotiator is positive. -/
lemma runningPositiveRates_pos (mods : List ModView) :
    ∀ q ∈ runningPositiveRates mods, 0 < q := by
  intro q hq
  simp only [runningPositiveRates, List.mem_filterMap] at hq
  obtain ⟨m, _, hcond⟩ := hq
  by_cases h : (m.is_running && decide (0 < m.required_fps)) = true
  · rw [if_pos h] at hcond
    obtain rfl := Option.some.inj hcond
    rw [Bool.and_eq_true] at h
    exact of_decide_eq_true h.2
  · rw [if_neg h] at hcond
    cases hcond

/-! ## Claim theorems -/

/-- C2: `should_process_frame` returns true iff the time elapsed since
`last_frame_time` is at least `frame_interval`; it sets `last_frame_time` to
the current time exactly when it returns true, and leaves the state
unchanged when it returns false. -/
theorem c2_rate_gate (m : OutputModule) (now : ℚ) :
    ((m.should_process_frame now).2 = true ↔
      m.frame_interval ≤ now - m.last_frame_time) ∧
    ((m.should_process_frame now).2 = true →
      (m.should_process_frame now).1 = { m with last_frame_time := now }) ∧
    ((m.should_process_frame now).2 = false →
      (m.should_process_frame now).1 = m) := by
  by_cases h : m.frame_interval ≤ now - m.last_frame_time <;>
    simp [OutputModule.should_process_frame, h]

/-- C2 witness: at time 1, a fresh module (interval 1/10, clock 0) accepts
the frame and its clock becomes 1. -/
theorem c2_rate_gate_witness :
    ((OutputModule.init 300).should_process_frame 1).1 =
      { OutputModule.init 300 with last_frame_time := 1 } :=
  (c2_rate_gate (OutputModule.init 300) 1).2.1
    (by norm_num [OutputModule.should_process_frame, OutputModule.init])

/-- C3: `add_frame` fails and leaves the state unchanged when the module is
stopped or the queue is full; otherwise it appends the frame and succeeds.
Consequently a stopped module is unaffected by any sequence of offered
frames, so its queue stays empty. -/
theorem c3_enqueue_non_blocking (m : OutputModule) (f : Nat) :
    (m.is_running = false → m.add_frame f = (m, false)) ∧
    (m.is_running = true → m.queueFull = true → m.add_frame f = (m, false)) ∧
    (m.is_running = true → m.queueFull = false →
      m.add_frame f = ({ m with frameQueue := m.frameQueue ++ [f] }, true)) ∧
    (m.is_running = false → m.frameQueue = [] →
      ∀ fs : List Nat, (m.offerFrames fs).frameQueue = []) := by
  refine ⟨?_, ?_, ?_, ?_⟩
  · intro h; simp [OutputModule.add_frame, h]
  · intro h hq; simp [OutputModule.add_frame, h, hq]
  · intro h hq; simp [OutputModule.add_frame, h, hq]
  · intro h hq fs
    rw [offerFrames_stopped fs m h, hq]

/-- C3 witness: a stopped module with an empty queue rejects a frame, and a
burst of three frames leaves its queue empty. -/
theorem c3_enqueue_non_blocking_witness :
    (OutputModule.init 300).add_frame 42 = (OutputModule.init 300, false) ∧
    ((OutputModule.init 300).offerFrames [1, 2, 3]).frameQueue = [] :=
  ⟨(c3_enqueue_non_blocking (OutputModule.init 300) 42).1 rfl,
   (c3_enqueue_non_blocking (OutputModule.init 300) 42).2.2.2 rfl rfl [1, 2, 3]⟩

/-- C5: starting from any state with positive `frame_interval` and `fps`,
every sequence of `set_fps` / `set_frametime` calls keeps them positive; a
non-positive argument is rejected with the state unchanged, and a positive
argument installs mutually reciprocal values (`frame_interval = 1 / fps`). -/
theorem c5_rate_setting_invariant (m : OutputModule) (ops : List RateOp) (q : ℚ)
    (h1 : 0 < m.frame_interval) (h2 : 0 < m.fps) :
    (0 < (m.applyRateOps ops).frame_interval ∧ 0 < (m.applyRateOps ops).fps) ∧
    (q ≤ 0 → m.set_fps q = (m, false) ∧ m.set_frametime q = (m, false)) ∧
    (0 < q →
      (m.set_fps q).1.fps = q ∧
      (m.set_fps q).1.frame_interval = 1 / (m.set_fps q).1.fps ∧
      (m.set_frametime q).1.frame_interval = q ∧
      (m.set_frametime q).1.frame_interval = 1 / (m.set_frametime q).1.fps) := by
  refine ⟨applyRateOps_pos ops m h1 h2, ?_, ?_⟩
  · intro hq
    constructor <;> simp [OutputModule.set_fps, OutputModule.set_frametime, hq]
  · intro hq
    have h4 : (1 : ℚ) / (1 / q) = q := one_div_one_div q
    simp [OutputModule.set_fps, OutputModule.set_frametime, not_le.mpr hq, h4]

/-- C5 witness: from the default state, setting 5 fps then an invalid
frametime of -3 leaves a positive interval; argument 4 is positive and 1/4
is the reciprocal interval. -/
theorem c5_rate_setting_invariant_witness :
    0 < ((OutputModule.init 300).applyRateOps
          [RateOp.setFps 5, RateOp.setFrametime (-3)]).frame_interval ∧
    ((OutputModule.init 300).set_fps 4).1.frame_interval =
      1 / ((OutputModule.init 300).set_fps 4).1.fps :=
  ⟨(c5_rate_setting_invariant (OutputModule.init 300)
      [RateOp.setFps 5, RateOp.setFrametime (-3)] 4
      (by norm_num [OutputModule.init]) (by norm_num [OutputModule.init])).1.1,
   ((c5_rate_setting_invariant (OutputModule.init 300)
      [RateOp.setFps 5, RateOp.setFrametime (-3)] 4
      (by norm_num [OutputModule.init]) (by norm_num [OutputModule.init])).2.2
      (by norm_num)).2.1⟩

/-- C7 counterexample: a successful `start()` on a module whose rate-gate
clock holds the stale value 5 leaves that clock at 5 — the source never
resets `last_frame_time`, contradicting the claim that a successful start
resets the rate-gate clock. -/
theorem c7_no_clock_reset_counterexample :
    staleModule.is_running = false ∧
    staleModule.start.2 = true ∧
    staleModule.start.1.last_frame_time = 5 := by decide

/-- C7 amended: `start()` is idempotent (a second consecutive call returns
false and changes nothing) and a successful start clears stale queued frames
before launching the worker, but it leaves the rate-gate clock
(`last_frame_time`) unchanged rather than resetting it; `stop()` on a
stopped module is a no-op returning false. -/
theorem c7_start_stop_amended (m : OutputModule) :
    (m.is_running = true → m.start = (m, false)) ∧
    (m.is_running = false →
      m.start.2 = true ∧
      m.start.1 = { m with is_running := true, frameQueue := [] } ∧
      m.start.1.last_frame_time = m.last_frame_time ∧
      m.start.1.start = (m.start.1, false)) ∧
    (m.is_running = false → m.stop = (m, false)) := by
  refine ⟨?_, ?_, ?_⟩
  · intro h; simp [OutputModule.start, h]
  · intro h
    simp [OutputModule.start, OutputModule.clear_queue, h]
  · intro h; simp [OutputModule.stop, h]

/-- C7 amended witness: starting the stale stopped module succeeds and a
second start is rejected without change. -/
theorem c7_start_stop_amended_witness :
    staleModule.start.2 = true ∧
    staleModule.start.1.start = (staleModule.start.1, false) :=
  ⟨((c7_start_stop_amended staleModule).2.1 rfl).1,
   ((c7_start_stop_amended staleModule).2.1 rfl).2.2.2⟩

/-- C6 counterexample: on a live camera at 1 fps, `update_capture_fps 2`
stops the hardware session, closes the handle, and re-runs the full start
sequence — a full stop/start restart, contradicting the claim that the new
rate is applied without one. -/
theorem c6_no_restart_counterexample :
    liveCamera.is_running = true ∧ liveCamera.cameraOpen = true ∧
    (liveCamera.update_capture_fps 2 noFail).2 =
      [CamEvent.hwStop, CamEvent.hwClose, CamEvent.hwOpen, CamEvent.hwConfigure,
       CamEvent.applyParams, CamEvent.hwStart, CamEvent.applyFpsLimits] ∧
    (liveCamera.update_capture_fps 2 noFail).1.current_capture_fps = 2 := by
  refine ⟨rfl, rfl, ?_, ?_⟩
  · norm_num [Camera.update_capture_fps, liveCamera, Camera.init,
      Camera.stop, Camera.start, noFail]
  · norm_num [Camera.update_capture_fps, liveCamera, Camera.init,
      Camera.stop, Camera.start, noFail]

/-- C6 amended: `update_capture_fps` clamps a non-positive request to 1.0
fps rather than rejecting it; when the clamped rate equals the current one
nothing happens; otherwise the new rate is stored and, while the hardware
session is live, applied via a full `stop()` followed by `start()` of the
hardware session (not an in-place re-application of the rate limits). -/
theorem c6_update_capture_fps_amended (c : Camera) (q : ℚ) (fail : StartStep → Bool) :
    0 < clampFps q ∧
    (c.current_capture_fps = clampFps q → c.update_capture_fps q fail = (c, [])) ∧
    (c.update_capture_fps q fail).1.current_capture_fps = clampFps q ∧
    (c.current_capture_fps ≠ clampFps q → c.is_running = true → c.cameraOpen = true →
      (c.update_capture_fps q fail).2 =
        [CamEvent.hwStop, CamEvent.hwClose] ++
          (Camera.start
            { c with current_capture_fps := clampFps q, is_running := false,
                     threadLaunched := false, cameraOpen := false } fail).2.1) ∧
    (c.is_running = false ∨ c.cameraOpen = false →
      (c.update_capture_fps q fail).2 = []) := by
  refine ⟨clampFps_pos q, ?_, update_capture_fps_result c q fail, ?_, ?_⟩
  · intro he
    simp only [clampFps] at he
    simp [Camera.update_capture_fps, he]
  · intro hne hr ho
    simp only [clampFps] at hne
    simp [Camera.update_capture_fps, clampFps, hne, hr, ho, Camera.stop]
  · intro hdead
    by_cases he : c.current_capture_fps = if q ≤ 0 then (1 : ℚ) else q
    · simp [Camera.update_capture_fps, he]
    · rcases hdead with hdead | hdead <;>
        simp [Camera.update_capture_fps, he, hdead]

/-- C6 amended witness: the live 1 fps camera ignores a request of -5 (it
clamps to 1.0, already current), and a request of 2 restarts the session. -/
theorem c6_update_capture_fps_amended_witness :
    liveCamera.update_capture_fps (-5) noFail = (liveCamera, []) ∧
    (liveCamera.update_capture_fps 2 noFail).2 =
      [CamEvent.hwStop, CamEvent.hwClose] ++
        (Camera.start
          { liveCamera with current_capture_fps := clampFps 2, is_running := false,
                            threadLaunched := false, cameraOpen := false } noFail).2.1 :=
  ⟨(c6_update_capture_fps_amended liveCamera (-5) noFail).2.1
      (by norm_num [liveCamera, Camera.init, clampFps]),
   (c6_update_capture_fps_amended liveCamera 2 noFail).2.2.2.1
      (by norm_num [liveCamera, Camera.init, clampFps]) rfl rfl⟩

/-- C10: when any step of `Camera.start` raises (`Picamera2()`,
configuration, or the hardware start), the call returns `False` and the
failure is atomic: `is_running` stays `False`, no capture thread is
launched, the handle ends closed (`None`), and the state is exactly the one
before the call, so a later `start()` can be attempted cleanly. -/
theorem c10_start_failure_atomic (c : Camera) (fail : StartStep → Bool)
    (hrun : c.is_running = false) (hopen : c.cameraOpen = false)
    (hfail : fail StartStep.openCam = true ∨ fail StartStep.configureCam = true ∨
             fail StartStep.startHw = true) :
    (c.start fail).2.2 = false ∧
    (c.start fail).1.is_running = false ∧
    (c.start fail).1.threadLaunched = c.threadLaunched ∧
    (c.start fail).1.cameraOpen = false ∧
    (c.start fail).1 = c := by
  have hc : ({ c with cameraOpen := false } : Camera) = c := by
    cases c
    simp_all
  cases h1 : fail StartStep.openCam <;> cases h2 : fail StartStep.configureCam <;>
    cases h3 : fail StartStep.startHw <;>
      simp_all [Camera.start]

/-- C10 witness: with a hardware oracle failing at configuration, starting a
fresh camera fails and leaves the state untouched. -/
theorem c10_start_failure_atomic_witness :
    (Camera.init.start failConfigure).2.2 = false ∧
    (Camera.init.start failConfigure).1 = Camera.init :=
  ⟨(c10_start_failure_atomic Camera.init failConfigure rfl rfl
      (Or.inr (Or.inl rfl))).1,
   (c10_start_failure_atomic Camera.init failConfigure rfl rfl
      (Or.inr (Or.inl rfl))).2.2.2.2⟩

/-- C8: on a running camera with a live handle, `update_settings` with a
changed, valid resolution performs a full stop of the hardware session
followed by a start (and ends running again); with no resolution supplied
and some brightness / contrast / saturation value changed, the parameters
are applied to the live session on the fly, with no stop, start, or any
other hardware event, and the running state and handle intact. -/
theorem c8_update_settings_effects (c : Camera) (s : CamSettings)
    (hrun : c.is_running = true) (hopen : c.cameraOpen = true) :
    (∀ r, s.resolution = some r → c.resolution ≠ r → 0 < r.1 → 0 < r.2 →
      (c.update_settings s noFail).2.2 = true ∧
      (c.update_settings s noFail).2.1 =
        [CamEvent.hwStop, CamEvent.hwClose, CamEvent.hwOpen, CamEvent.hwConfigure,
         CamEvent.applyParams, CamEvent.hwStart, CamEvent.applyFpsLimits] ∧
      (c.update_settings s noFail).1.is_running = true ∧
      (c.update_settings s noFail).1.cameraOpen = true) ∧
    (s.resolution = none → (c.update_settings s noFail).2.2 = true →
      (c.update_settings s noFail).2.1 = [CamEvent.applyParams] ∧
      (c.update_settings s noFail).1 = (c.applySettingsFields s).1 ∧
      (c.update_settings s noFail).1.is_running = true ∧
      (c.update_settings s noFail).1.cameraOpen = true) := by
  have hpres := applySettingsFields_preserves c s
  have hr1 : (c.applySettingsFields s).1.is_running = true := by
    rw [hpres.1, hrun]
  have ho1 : (c.applySettingsFields s).1.cameraOpen = true := by
    rw [hpres.2, hopen]
  constructor
  · intro r hres hne h1 h2
    have hflag := applySettingsFields_restart c s r hres hne h1 h2
    simp [Camera.update_settings, hflag, hr1, ho1, Camera.stop, Camera.start, noFail]
  · intro hres hupd
    have hflag := applySettingsFields_no_restart c s hres
    cases hu : (c.applySettingsFields s).2.1 with
    | false =>
      exfalso
      simp [Camera.update_settings, hflag, hu, hr1, ho1] at hupd
    | true =>
      simp [Camera.update_settings, hflag, hu, hr1, ho1]

/-- C8 witness: changing the live camera's resolution to 640x480 restarts
the hardware session, and a brightness-only change produces exactly one
on-the-fly parameter application. -/
theorem c8_update_settings_effects_witness :
    (liveCamera.update_settings resSettings noFail).2.1 =
      [CamEvent.hwStop, CamEvent.hwClose, CamEvent.hwOpen, CamEvent.hwConfigure,
       CamEvent.applyParams, CamEvent.hwStart, CamEvent.applyFpsLimits] ∧
    (liveCamera.update_settings brightnessSettings noFail).2.1 =
      [CamEvent.applyParams] :=
  ⟨((c8_update_settings_effects liveCamera resSettings rfl rfl).1
      (640, 480) rfl (by decide) (by decide) (by decide)).2.1,
   ((c8_update_settings_effects liveCamera brightnessSettings rfl rfl).2
      rfl (by norm_num [Camera.update_settings, Camera.applySettingsFields,
        brightnessSettings, liveCamera, Camera.init])).1⟩

/-- C1: after the negotiator runs, the camera's target capture rate is the
maximum of the positive `get_required_camera_fps()` values over running
modules, and the fixed idle rate `DEFAULT_IDLE_CAMERA_FPS` when no running
module reports a positive rate — whatever the hardware oracle does during
any restart. -/
theorem c1_negotiated_capture_rate (cam : Camera) (mods : List ModView)
    (fail : StartStep → Bool) :
    (runningPositiveRates mods = [] →
      (update_camera_fps_based_on_outputs cam mods fail).1.current_capture_fps =
        DEFAULT_IDLE_CAMERA_FPS) ∧
    (runningPositiveRates mods ≠ [] →
      (update_camera_fps_based_on_outputs cam mods fail).1.current_capture_fps ∈
        runningPositiveRates mods ∧
      ∀ q ∈ runningPositiveRates mods,
        q ≤ (update_camera_fps_based_on_outputs cam mods fail).1.current_capture_fps) := by
  have hfold := foldl_fpsStep_eq mods 0 false
  have hres : (update_camera_fps_based_on_outputs cam mods fail).1.current_capture_fps
      = clampFps (targetCameraFps mods) :=
    update_capture_fps_result cam (targetCameraFps mods) fail
  constructor
  · intro hnil
    have ht : targetCameraFps mods = DEFAULT_IDLE_CAMERA_FPS := by
      simp [targetCameraFps, hfold, hnil]
    have hidle : ¬ ((1 : ℚ) / 20 ≤ 0) := by norm_num
    rw [hres, ht]
    unfold clampFps DEFAULT_IDLE_CAMERA_FPS
    rw [if_neg hidle]
  · intro hne
    obtain ⟨x, l', hl⟩ := List.exists_cons_of_ne_nil hne
    have hx : x ∈ runningPositiveRates mods := by
      rw [hl]
      exact List.mem_cons_self x l'
    have hxpos : 0 < x := runningPositiveRates_pos mods x hx
    have hfle := foldl_max_le_of_mem (runningPositiveRates mods) 0 x hx
    have hpos : 0 < (runningPositiveRates mods).foldl max 0 :=
      lt_of_lt_of_le hxpos hfle
    have hempty : (runningPositiveRates mods).isEmpty = false := by
      rw [hl]
      rfl
    have ht : targetCameraFps mods = (runningPositiveRates mods).foldl max 0 := by
      simp [targetCameraFps, hfold, hempty, hpos]
    have hclamp : clampFps (targetCameraFps mods) = targetCameraFps mods := by
      unfold clampFps
      rw [ht, if_neg (not_le.mpr hpos)]
    rw [hres, hclamp, ht]
    constructor
    · rcases foldl_max_mem_or_eq (runningPositiveRates mods) 0 with h | h
      · rw [h] at hpos
        exact absurd hpos (lt_irrefl 0)
      · exact h
    · intro q hq
      exact foldl_max_le_of_mem _ 0 q hq

/-- C1 witness: with running modules demanding 25 and 0 fps and a stopped
one demanding 100, the camera ends at a rate that is among the positive
demands of running modules (namely 25). -/
theorem c1_negotiated_capture_rate_witness :
    (update_camera_fps_based_on_outputs Camera.init
        [⟨true, 25⟩, ⟨false, 100⟩, ⟨true, 0⟩] noFail).1.current_capture_fps ∈
      runningPositiveRates [⟨true, 25⟩, ⟨false, 100⟩, ⟨true, 0⟩] :=
  ((c1_negotiated_capture_rate Camera.init
      [⟨true, 25⟩, ⟨false, 100⟩, ⟨true, 0⟩] noFail).2 (by decide)).1

/-- C4: a timelapse artifact is produced only with at least `min_frames`
collected frames; stopping a running session with fewer than `min_frames`
frames yields no artifact and discards the frames; stopping with at least
`min_frames` yields exactly one artifact holding all collected frames in
capture order (and clears them); and an assembly on a still-running session
re-arms it: frames cleared and `start_time` reset to the present. -/
theorem c4_timelapse_artifact (t : TimelapseModule) (now : ℚ)
    (hrun : t.is_running = true) (hmin : 0 < t.min_frames) :
    (∀ a, (t.create_timelapse now).2 = some a →
      t.min_frames ≤ t.frames.length ∧ a = t.frames) ∧
    (t.frames.length < t.min_frames →
      (t.tl_stop now).2.2 = none ∧ (t.tl_stop now).1.frames = []) ∧
    (t.min_frames ≤ t.frames.length →
      (t.tl_stop now).2.2 = some t.frames ∧ (t.tl_stop now).1.frames = []) ∧
    (t.min_frames ≤ t.frames.length →
      (t.create_timelapse now).2 = some t.frames ∧
      (t.create_timelapse now).1.frames = [] ∧
      (t.create_timelapse now).1.start_time = now) := by
  refine ⟨?_, ?_, ?_, ?_⟩
  · intro a ha
    unfold TimelapseModule.create_timelapse at ha
    split at ha
    · simp at ha
    · rename_i h
      push_neg at h
      simp only [Prod.snd] at ha
      exact ⟨h.2, (Option.some.inj ha).symm⟩
  · intro hlt
    have hnotmin : ¬ (0 < t.min_frames ∧ t.min_frames ≤ t.frames.length) :=
      fun h => absurd h.2 (not_le.mpr hlt)
    by_cases hlen : 0 < t.frames.length
    · by_cases hdur : 0 < t.duration ∧ t.duration ≤ now - t.start_time
      · simp [TimelapseModule.tl_stop, TimelapseModule.create_timelapse,
          OutputModule.stop, OutputModule.clear_queue, hrun, hlt, hnotmin, hdur, hlen]
      · simp [TimelapseModule.tl_stop, TimelapseModule.create_timelapse,
          OutputModule.stop, OutputModule.clear_queue, hrun, hnotmin, hdur, hlen]
    · have hnil : t.frames = [] := by
        have h0 : t.frames.length = 0 := Nat.eq_zero_of_not_pos hlen
        exact List.eq_nil_of_length_eq_zero h0
      simp [TimelapseModule.tl_stop, TimelapseModule.create_timelapse,
        OutputModule.stop, OutputModule.clear_queue, hrun, hnil]
  · intro hge
    have hlen : 0 < t.frames.length := lt_of_lt_of_le hmin hge
    have hnonnil : t.frames ≠ [] := List.ne_nil_of_length_pos hlen
    simp [TimelapseModule.tl_stop, TimelapseModule.create_timelapse,
      OutputModule.stop, OutputModule.clear_queue, hrun, hmin, hge, hlen, hnonnil,
      not_lt.mpr hge]
  · intro hge
    have hnonnil : t.frames ≠ [] :=
      List.ne_nil_of_length_pos (lt_of_lt_of_le hmin hge)
    simp [TimelapseModule.create_timelapse, hrun, hnonnil, not_lt.mpr hge]

/-- C4 witness: stopping the running session holding frames 7, 8, 9 with
`min_frames = 2` yields the artifact of exactly those frames in order. -/
theorem c4_timelapse_artifact_witness :
    (runningTimelapse.tl_stop 150).2.2 = some runningTimelapse.frames ∧
    (runningTimelapse.tl_stop 150).1.frames = [] :=
  (c4_timelapse_artifact runningTimelapse 150 rfl (by decide)).2.2.1 (by decide)

/-- C9: while the consumer is running, appending a drained frame triggers
assembly exactly when `duration > 0` and the time since the session start
has reached `duration`; the frame count reaching `min_frames` never by
itself triggers assembly while running, and no artifact appears without a
trigger. -/
theorem c9_duration_sole_trigger (t : TimelapseModule) (fr : Nat) (now : ℚ)
    (hrun : t.is_running = true) :
    ((t.handle_frame fr now).2.1 = true ↔
      0 < t.duration ∧ t.duration ≤ now - t.start_time) ∧
    ((t.handle_frame fr now).2.1 = false → (t.handle_frame fr now).2.2 = none) := by
  unfold TimelapseModule.handle_frame
  by_cases hdur : 0 < t.duration ∧ t.duration ≤ now - t.start_time
  · simp [hdur, hrun]
  · simp [hdur, hrun]

/-- C9 witness: the running session (duration 300, started at 100) triggers
assembly on a frame drained at time 500, and, with 4 < 300 elapsed, does
not trigger at time 104 even though `min_frames = 2` is already met. -/
theorem c9_duration_sole_trigger_witness :
    (runningTimelapse.handle_frame 1 500).2.1 = true ∧
    (runningTimelapse.handle_frame 1 104).2.1 = false :=
  ⟨(c9_duration_sole_trigger runningTimelapse 1 500 rfl).1.mpr
      (by norm_num [runningTimelapse]),
   by
    have h := (c9_duration_sole_trigger runningTimelapse 1 104 rfl).1
    rcases hb : (runningTimelapse.handle_frame 1 104).2.1 with _ | _
    · rfl
    · exact absurd ((h.mp hb).2) (by norm_num [runningTimelapse])⟩

end MicroscopeStream
